import Mathlib

/-!
Verification of the evolutionary-search engine of the OllamaAlpha_Evolve
repository against its natural-language specification.

The development is a shallow embedding of the Python source:

* `core/interfaces.py` — the `Program` dataclass (candidate data model);
* `selection_controller/agent.py` — `select_parents` and `select_survivors`;
* `evaluator_agent/agent.py` — `evaluate_program` and `_assess_correctness`
  (the sandboxed subprocess itself is external; its observable outcome —
  parsed structured output or an error string — is passed as an argument);
* `task_manager/agent.py` — `evaluate_population` and the post-generation
  filtering step of `generate_offspring`;
* `code_generator/agent.py` — `_apply_diff`.

Python floats that can be `inf` are modelled as `WithTop ℚ` / `WithBot ℚ`;
other floats as `ℚ`.  Python dictionaries holding the fitness metrics are
modelled as a structure of `Option`-valued fields (`none` = key absent).
Python's stable `sorted(..., reverse=True)` is modelled by
`List.insertionSort` with the reflexive "key is greater or equal" relation,
which is sorted and stable in exactly the same sense.  Randomness
(`random.uniform`, `random.sample`, `random.choice`) is modelled by passing
the drawn values / sampling functions as explicit arguments.
-/

namespace OAE

/-- The `fitness_scores: Dict[str, float]` dictionary of the `Program`
dataclass (`core/interfaces.py`).  Only the four keys the source ever uses
appear; a `none` field models an absent key.  `runtime_ms` may hold the
`float('inf')` sentinel, hence `WithTop ℚ`. -/
structure FitnessScores where
  correctness : Option ℚ
  runtime_ms : Option (WithTop ℚ)
  passed_tests : Option ℚ
  total_tests : Option ℚ
deriving DecidableEq

/-- The empty dictionary `{}` (the dataclass default). -/
def FitnessScores.empty : FitnessScores :=
  { correctness := none, runtime_ms := none, passed_tests := none, total_tests := none }

/-- The `Program` dataclass of `core/interfaces.py`.  `code` is the program
text as a character list. -/
structure Program where
  id : String
  code : List Char
  fitness_scores : FitnessScores
  generation : Int
  parent_id : Option String
  errors : List String
  status : String
deriving DecidableEq

/-- Placeholder used to totalise Python list indexing (`population[i]`);
every indexing the embedded code performs is in range, so this value is
never produced by any run modelled here. -/
def defaultProgram : Program :=
  { id := "", code := [], fitness_scores := FitnessScores.empty,
    generation := 0, parent_id := none, errors := [], status := "unevaluated" }

/-- `p.fitness_scores.get("correctness", 0.0)`. -/
def corrD (p : Program) : ℚ := p.fitness_scores.correctness.getD 0

/-- `p.fitness_scores.get("runtime_ms", float('inf'))`. -/
def rtD (p : Program) : WithTop ℚ := p.fitness_scores.runtime_ms.getD ⊤

/-- Negation of a runtime (`-p.fitness_scores.get("runtime_ms", float('inf'))`):
`inf` becomes `-inf`. -/
def negTop (x : WithTop ℚ) : WithBot ℚ :=
  match x with
  | Option.none => ⊥
  | Option.some q => ((-q : ℚ) : WithBot ℚ)

/-- Sort key of `select_parents` (`selection_controller/agent.py` line 34):
`(correctness, -runtime_ms)`, compared lexicographically. -/
def parentKey (p : Program) : ℚ ×ₗ WithBot ℚ :=
  toLex (corrD p, negTop (rtD p))

/-- Sort key of `select_survivors` (`selection_controller/agent.py` line 124):
`(correctness, -runtime_ms, -generation)`, compared lexicographically. -/
def survKey (p : Program) : ℚ ×ₗ (WithBot ℚ ×ₗ ℤ) :=
  toLex (corrD p, toLex (negTop (rtD p), -p.generation))

/-- `a` may come before `b` in the descending parent sort. -/
def parentGE (a b : Program) : Prop := parentKey b ≤ parentKey a

/-- `a` may come before `b` in the descending survivor sort. -/
def survGE (a b : Program) : Prop := survKey b ≤ survKey a

instance : DecidableRel parentGE := fun a b =>
  inferInstanceAs (Decidable (parentKey b ≤ parentKey a))

instance : DecidableRel survGE := fun a b =>
  inferInstanceAs (Decidable (survKey b ≤ survKey a))

instance : IsTotal Program parentGE := ⟨fun a b => le_total (parentKey b) (parentKey a)⟩

instance : IsTrans Program parentGE := ⟨fun _ _ _ h1 h2 => le_trans h2 h1⟩

instance : IsTotal Program survGE := ⟨fun a b => le_total (survKey b) (survKey a)⟩

instance : IsTrans Program survGE := ⟨fun _ _ _ h1 h2 => le_trans h2 h1⟩

/-- The "append unique ids until `size` are collected" loop shared by the
elitism step of `select_parents` (lines 45-54) and by `select_survivors`
(lines 134-144): walk the sorted list, skip a program whose id was already
taken, stop as soon as `size` programs have been collected.  `size` is the
number of still-free slots and `seen` the ids collected so far. -/
def dedupTake (size : Nat) (seen : List String) : List Program → List Program
  | [] => []
  | p :: rest =>
    if size = 0 then []
    else if p.id ∈ seen then dedupTake size seen rest
    else p :: dedupTake (size - 1) (p.id :: seen) rest

/-- `select_survivors` of `selection_controller/agent.py` (lines 112-147):
concatenate current and offspring populations, stable-sort descending by
`(correctness, -runtime_ms, -generation)`, then keep the first
`population_size` programs with pairwise-distinct ids. -/
def select_survivors (current_population offspring_population : List Program)
    (population_size : Nat) : List Program :=
  let combined_population := current_population ++ offspring_population
  if combined_population.isEmpty then []
  else dedupTake population_size [] (List.insertionSort survGE combined_population)

/-- Inner scan of the roulette-wheel pick (`select_parents` lines 86-92):
running sum of `correctness + 0.0001` over the candidates, returning the
first candidate at which the running sum reaches `pick`. -/
def rouletteGo (pick : ℚ) (acc : ℚ) : List Program → Option Program
  | [] => none
  | p :: rest =>
    let acc2 := acc + (corrD p + 1/10000)
    if pick ≤ acc2 then some p else rouletteGo pick acc2 rest

/-- One roulette draw (`select_parents` lines 85-92). -/
def rouletteChoose (roulette : List Program) (pick : ℚ) : Option Program :=
  rouletteGo pick 0 roulette

/-- The roulette loop of `select_parents` (lines 83-107): one draw per
remaining slot, consuming one value of the `random.uniform(0, total)` stream
`picks` per iteration; a draw that selects nobody falls back to
`random.choice` (modelled by `choiceFn`; the candidate list is non-empty and
never shrinks, so the loop's other break is unreachable). -/
def rouletteLoop (roulette : List Program) (choiceFn : List Program → Program) :
    Nat → List ℚ → List Program
  | 0, _ => []
  | n + 1, picks =>
    (match rouletteChoose roulette (picks.headD 0) with
      | some p => p
      | none => choiceFn roulette) :: rouletteLoop roulette choiceFn n picks.tail

/-- `select_parents` of `selection_controller/agent.py` (lines 17-110).
`elitism_count` is `settings.ELITISM_COUNT` (the repository configures 1);
`picks` is the stream of `random.uniform(0, total_fitness)` draws,
`sampleFn` models `random.sample` (zero-total-fitness fallback) and
`choiceFn` models `random.choice` (empty-draw fallback).

The source: empty population or zero requested parents give `[]`; a request
larger than the population returns a copy of the whole population; otherwise
stable-sort descending by `(correctness, -runtime_ms)`, take the top
`elitism_count` unique-id programs as elites, and fill the remaining slots by
roulette-wheel selection (with replacement) over the non-elite programs,
falling back to random sampling when every candidate's fitness is
effectively zero. -/
def select_parents (population : List Program) (num_parents : Nat)
    (elitism_count : Nat) (picks : List ℚ)
    (sampleFn : List Program → Nat → List Program)
    (choiceFn : List Program → Program) : List Program :=
  if population.isEmpty then []
  else if num_parents = 0 then []
  else if population.length < num_parents then population
  else
    let sorted_population := List.insertionSort parentGE population
    let parents := dedupTake elitism_count [] sorted_population
    if num_parents ≤ parents.length then parents
    else
      let roulette_candidates :=
        sorted_population.filter (fun p => decide (p.id ∉ parents.map Program.id))
      if roulette_candidates.isEmpty then parents
      else
        let remaining_slots := num_parents - parents.length
        let total_fitness := (roulette_candidates.map (fun p => corrD p + 1/10000)).sum
        if total_fitness ≤ (1/10000 : ℚ) * roulette_candidates.length then
          parents ++ sampleFn roulette_candidates (min remaining_slots roulette_candidates.length)
        else
          parents ++ rouletteLoop roulette_candidates choiceFn remaining_slots picks

section Evaluator

variable {α : Type} [DecidableEq α]

/-- One entry of `task.input_output_examples` (`core/interfaces.py`): a
`{"input": ..., "output": ...}` dictionary.  Outputs are drawn from an
arbitrary type `α` with decidable equality, modelling Python `==` on the
JSON-decoded values. -/
structure IOExample (α : Type) where
  input : Option α
  output : α
deriving DecidableEq

/-- The fields of the `TaskDefinition` dataclass (`core/interfaces.py`) that
the evaluator reads.  `input_output_examples = []` models both the empty
list and Python `None` (the source only ever tests the field for truthiness). -/
structure TaskDefinition (α : Type) where
  id : String
  description : String
  function_name_to_evolve : Option String
  input_output_examples : List (IOExample α)
deriving DecidableEq

/-- One per-test-case record of the sandbox harness's structured stdout
(`evaluator_agent/agent.py` lines 128 and 132-138): on success the entry has
`status = "success"` and carries the returned value; on error it has
`status = "error"` and no `output` key (`output = none`). -/
structure TestOutput (α : Type) where
  test_case_id : Nat
  status : String
  output : Option α
  runtime_ms : ℚ
deriving DecidableEq

/-- The parsed structured output of a successful sandbox run
(`evaluator_agent/agent.py` lines 145-147): the per-case records, and the
mean runtime over the successfully executed cases (`average_runtime_ms`,
absent when no case succeeded). -/
structure ExecResults (α : Type) where
  test_outputs : List (TestOutput α)
  average_runtime_ms : Option ℚ
deriving DecidableEq

/-- `_assess_correctness` of `evaluator_agent/agent.py` (lines 234-267).
`none` execution results model the `not execution_results or "test_outputs"
not in execution_results` early return.  For each expected output `i`, the
first harness record with `test_case_id == i` is looked up; the case passes
when that record exists, has `status == "success"` and its output equals the
expected value.  Returns `(correctness, passed_tests, total_tests)` with
`correctness = 1.0` when there are zero test cases. -/
def _assess_correctness (execution_results : Option (ExecResults α))
    (expected_outputs : List (IOExample α)) : ℚ × Nat × Nat :=
  let total_tests := expected_outputs.length
  match execution_results with
  | none => (0, 0, total_tests)
  | some er =>
    let passed_tests := expected_outputs.enum.countP (fun ie =>
      match er.test_outputs.find? (fun res => res.test_case_id == ie.1) with
      | some d => d.status == "success" && d.output == some ie.2.output
      | none => false)
    if total_tests = 0 then (1, 0, 0)
    else ((passed_tests : ℚ) / (total_tests : ℚ), passed_tests, total_tests)

/-- The final status assignment of `evaluate_program`
(`evaluator_agent/agent.py` lines 311-314): `evaluated` when the error list
is empty, `failed_evaluation` otherwise. -/
def finalize (p : Program) : Program :=
  if p.errors.isEmpty then { p with status := "evaluated" }
  else { p with status := "failed_evaluation" }

/-- `evaluate_program` of `evaluator_agent/agent.py` (lines 269-317).

The two external effects are passed as arguments: `syntax_errors` is the
result of `_check_syntax` (`ast.parse` on the candidate's text) and
`execOutcome` is the `(results, error)` pair returned by
`_execute_code_safely` (the sandboxed subprocess; an execution failure,
unparseable output, or timeout yields `(none, some message)`, a clean run
yields `(some results, none)`).

The body mirrors the source statement by statement: reset status, errors and
fitness (runtime starts at the `float('inf')` sentinel); bail out as
`failed_evaluation` on syntax errors or execution errors; otherwise score
the test cases, record a `"Failed k out of n test cases."` diagnostic when
correctness is below 1, or — when the task supplies no test cases — set
correctness to 0.5; finally derive the status from the error list. -/
def evaluate_program (program0 : Program) (task : TaskDefinition α)
    (syntax_errors : List String)
    (execOutcome : Option (ExecResults α) × Option String) : Program :=
  let program : Program := { program0 with
    status := "evaluating", errors := [],
    fitness_scores := { correctness := some 0, runtime_ms := some ⊤,
                        passed_tests := none, total_tests := none } }
  if ¬ syntax_errors.isEmpty then
    { program with
      errors := program.errors ++ syntax_errors
      fitness_scores := { program.fitness_scores with correctness := some 0 }
      status := "failed_evaluation" }
  else if ¬ task.input_output_examples.isEmpty then
    match execOutcome with
    | (_, some execution_error) =>
      { program with
        errors := program.errors ++ ["Execution Error: " ++ execution_error]
        fitness_scores := { program.fitness_scores with correctness := some 0 }
        status := "failed_evaluation" }
    | (execution_results, none) =>
      let r := _assess_correctness execution_results task.input_output_examples
      let program : Program := { program with fitness_scores :=
        { program.fitness_scores with
          correctness := some r.1
          passed_tests := some (r.2.1 : ℚ)
          total_tests := some (r.2.2 : ℚ) } }
      let program : Program :=
        if r.1 < 1 then
          { program with errors := program.errors ++
            ["Failed " ++ toString (r.2.2 - r.2.1) ++ " out of " ++
              toString r.2.2 ++ " test cases."] }
        else program
      finalize program
  else
    finalize { program with
      fitness_scores := { program.fitness_scores with correctness := some (1/2) },
      status := "evaluated" }

/-- The state of the very `Program` object the caller passed to
`evaluate_program`, as seen by the caller after the call returns.  The
Python method performs every update by assigning to fields of its `program`
argument (lines 271-273, 277-279, 291-293, 299-301, 305, 308-314) and then
returns that same object, so the caller's object ends the call holding
exactly the returned record. -/
def evaluate_program_callerView (program0 : Program) (task : TaskDefinition α)
    (syntax_errors : List String)
    (execOutcome : Option (ExecResults α) × Option String) : Program :=
  evaluate_program program0 task syntax_errors execOutcome

/-- The `(results, error)` pair `_execute_code_safely` returns when the
sandboxed run exceeds the wall-clock timeout (`evaluator_agent/agent.py`
lines 211-221): no results, and a message naming the timeout. -/
def timeoutOutcome (timeout : Nat) : Option (ExecResults α) × Option String :=
  (none, some ("Execution timed out after " ++ toString timeout ++ " seconds."))

end Evaluator

/-- Outcome of one `evaluate_program` task as observed by `asyncio.gather(...,
return_exceptions=True)` in `evaluate_population`: either the evaluated
program, or the exception the task raised. -/
inductive EvalOutcome where
  | ok (q : Program)
  | exc (msg : String)
deriving DecidableEq

/-- The per-result branch of the collection loop of `evaluate_population`
(`task_manager/agent.py` lines 67-73): an exception converts `orig` — the
program found at the loop index in the *unfiltered* population — to
`failed_evaluation` with the error text appended; a normal result is
appended as-is. -/
def resolveOutcome (orig : Program) : EvalOutcome → Program
  | .ok q => q
  | .exc e => { orig with status := "failed_evaluation", errors := orig.errors ++ [e] }

/-- The `for i, result in enumerate(results)` loop of `evaluate_population`
(lines 65-74): the loop index `i` is looked up in the full `population`
(`original_program = population[i]`, line 66). -/
def evalPopGo (population : List Program) : Nat → List EvalOutcome → List Program
  | _, [] => []
  | i, r :: rest =>
    resolveOutcome (population.getD i defaultProgram) r :: evalPopGo population (i + 1) rest

/-- `evaluate_population` of `task_manager/agent.py` (lines 58-77): dispatch
one evaluation task per candidate whose status is not `"evaluated"` (line
61); `asyncio.gather` returns their outcomes in dispatch order (modelled by
mapping `outcome` over the dispatched list); the collection loop then pairs
the `i`-th outcome with `population[i]`. -/
def evaluate_population (population : List Program)
    (outcome : Program → EvalOutcome) : List Program :=
  evalPopGo population 0
    ((population.filter (fun p => decide (p.status ≠ "evaluated"))).map outcome)

section DiffPatcher

/-- Python's substring test `needle in haystack`. -/
def pyIn (needle haystack : List Char) : Bool :=
  (List.range (haystack.length + 1)).any (fun i => needle.isPrefixOf (haystack.drop i))

/-- Python's `haystack.replace(needle, repl, 1)`: replace the leftmost
occurrence of `needle`, leaving the text unchanged when there is none. -/
def pyReplaceFirst (needle repl : List Char) : List Char → List Char
  | [] => if needle.isPrefixOf ([] : List Char) then repl else []
  | c :: rest =>
    if needle.isPrefixOf (c :: rest) then repl ++ (c :: rest).drop needle.length
    else c :: pyReplaceFirst needle repl rest

/-- Python's `s.strip('\n')`. -/
def stripNewlines (l : List Char) : List Char :=
  ((l.dropWhile (fun c => c == '\n')).reverse.dropWhile (fun c => c == '\n')).reverse

/-- Python's `s.replace('\r\n', '\n').replace('\r', '\n')`. -/
def normalizeNewlines : List Char → List Char
  | [] => []
  | '\r' :: '\n' :: rest => '\n' :: normalizeNewlines rest
  | '\r' :: rest => '\n' :: normalizeNewlines rest
  | c :: rest => c :: normalizeNewlines rest

/-- One `<<<<<<< SEARCH / ======= / >>>>>>> REPLACE` block as captured by the
diff regex of `_apply_diff` (`code_generator/agent.py` line 130): the two
groups of the match. -/
structure DiffBlock where
  search : List Char
  replace : List Char

/-- The search text actually looked up by `_apply_diff` (lines 132-134):
the captured group with newlines stripped from both ends and line endings
normalised. -/
def searchKey (b : DiffBlock) : List Char := normalizeNewlines (stripNewlines b.search)

/-- One iteration of the edit loop of `_apply_diff` (lines 131-143): apply
the block when its (normalised) search text occurs in the current state of
the code, otherwise skip the block and leave the code unchanged. -/
def applyOneDiff (modified_code : List Char) (b : DiffBlock) : List Char :=
  if pyIn (searchKey b) modified_code then
    pyReplaceFirst (searchKey b) (stripNewlines b.replace) modified_code
  else modified_code

/-- `_apply_diff` of `code_generator/agent.py` (lines 116-150), over the list
of edit blocks the diff regex extracted from the generated text: fold the
blocks left to right over the parent code. -/
def _apply_diff (parent_code : List Char) (blocks : List DiffBlock) : List Char :=
  blocks.foldl applyOneDiff parent_code

end DiffPatcher

/-- The whitespace characters stripped by Python's `str.strip()`. -/
def isPySpace (c : Char) : Bool :=
  c == ' ' || c == '\t' || c == '\n' || c == '\r' || c == '\x0b' || c == '\x0c'

/-- Python's `s.strip()`. -/
def pyStrip (l : List Char) : List Char :=
  ((l.dropWhile isPySpace).reverse.dropWhile isPySpace).reverse

/-- The literal `'<<<<<<< SEARCH'`. -/
def searchMarker : List Char := "<<<<<<< SEARCH".toList

/-- The literal `'======='`. -/
def sepMarker : List Char := "=======".toList

/-- The literal `'>>>>>>> REPLACE'`. -/
def replaceMarker : List Char := ">>>>>>> REPLACE".toList

/-- The post-generation filtering of `generate_offspring`
(`task_manager/agent.py` lines 194-223), a pure function of the parent and
of the text `generated_code` that `CodeGeneratorAgent.execute` returned
(the diff-applied code, or the raw diff when application failed):
discard when the stripped text is empty (line 194), when it equals the
parent's code (line 200), when it still contains all three raw diff markers
(line 206), or when its first 100 characters contain `"# Error:"`
(line 211); otherwise build the offspring `Program`. -/
def generate_offspring_filter (parent : Program) (generated_code : List Char)
    (generation_num : Int) (child_id : String) : Option Program :=
  if (pyStrip generated_code).isEmpty then none
  else if generated_code = parent.code then none
  else if pyIn searchMarker generated_code && pyIn sepMarker generated_code &&
      pyIn replaceMarker generated_code then none
  else if pyIn "# Error:".toList (generated_code.take 100) then none
  else some { id := child_id
              code := generated_code
              fitness_scores := FitnessScores.empty
              generation := generation_num
              parent_id := some parent.id
              errors := []
              status := "unevaluated" }

/-! Concrete instances used by the witnesses and counterexamples below. -/

/-- A freshly generated candidate. -/
def prog1 : Program :=
  { id := "prog1"
    code := "pass".toList
    fitness_scores := FitnessScores.empty
    generation := 0
    parent_id := none
    errors := []
    status := "unevaluated" }

/-- A task with two test cases (expected outputs 1 and 2). -/
def taskTwoCases : TaskDefinition Int :=
  { id := "task1"
    description := "sample task"
    function_name_to_evolve := some "solve"
    input_output_examples :=
      [{ input := some 1, output := 1 }, { input := some 2, output := 2 }] }

/-- The same task with no test cases supplied. -/
def taskNoCases : TaskDefinition Int :=
  { taskTwoCases with input_output_examples := [] }

/-- Sandbox output of a run of `taskTwoCases` in which case 0 succeeded with
the expected value (2 ms) and case 1 raised an exception: one passing and
one failing case. -/
def erPartial : ExecResults Int :=
  { test_outputs :=
      [{ test_case_id := 0, status := "success", output := some 1, runtime_ms := 2 },
       { test_case_id := 1, status := "error", output := none, runtime_ms := 4 }]
    average_runtime_ms := some 2 }

/-- Sandbox output of a run of `taskTwoCases` in which both cases succeeded
with the expected values, in 2 ms and 4 ms (mean 3 ms). -/
def erAllPass : ExecResults Int :=
  { test_outputs :=
      [{ test_case_id := 0, status := "success", output := some 1, runtime_ms := 2 },
       { test_case_id := 1, status := "success", output := some 2, runtime_ms := 4 }]
    average_runtime_ms := some 3 }

/-- An already-evaluated candidate sitting in a population. -/
def progDone : Program := { prog1 with id := "done", status := "evaluated" }

/-- A not-yet-evaluated candidate whose evaluation task will raise. -/
def progPend : Program := { prog1 with id := "pend", status := "unevaluated" }

/-- Evaluation outcomes for `evaluate_population`: the task for `"pend"`
raises `boom`; every other candidate evaluates normally to itself. -/
def outcomeBoom : Program → EvalOutcome := fun p =>
  if p.id = "pend" then EvalOutcome.exc "boom" else EvalOutcome.ok p

/-- Evaluated candidate, correctness 1, runtime 10 ms. -/
def progA : Program :=
  { prog1 with
    id := "pA"
    status := "evaluated"
    fitness_scores :=
      { FitnessScores.empty with correctness := some 1, runtime_ms := some ((10 : ℚ) : WithTop ℚ) } }

/-- Evaluated candidate, correctness 1, runtime 20 ms. -/
def progB : Program :=
  { progA with
    id := "pB"
    fitness_scores :=
      { FitnessScores.empty with correctness := some 1, runtime_ms := some ((20 : ℚ) : WithTop ℚ) } }

/-- Evaluated candidate, correctness 1, runtime 30 ms. -/
def progC : Program :=
  { progA with
    id := "pC"
    fitness_scores :=
      { FitnessScores.empty with correctness := some 1, runtime_ms := some ((30 : ℚ) : WithTop ℚ) } }

/-- A three-candidate population, already sorted by the parent key. -/
def pop3 : List Program := [progA, progB, progC]

/-- Generation-0 candidate with perfect fitness (correctness 1, 50 ms). -/
def gOld : Program :=
  { prog1 with
    id := "old"
    status := "evaluated"
    generation := 0
    fitness_scores :=
      { FitnessScores.empty with correctness := some 1, runtime_ms := some ((50 : ℚ) : WithTop ℚ) } }

/-- Generation-1 candidate with exactly the same fitness as `gOld`. -/
def gNew : Program := { gOld with id := "new", generation := 1 }

/-- A generated text that still contains all three raw diff markers. -/
def rawDiffText : List Char :=
  ("x\n<<<<<<< SEARCH\na\n=======\nb\n>>>>>>> REPLACE\n").toList

/-- An edit block whose search text does not occur in `"abc"`. -/
def absentBlock : DiffBlock := { search := "zzz".toList, replace := "y".toList }

/-! ## Helper lemmas -/

/-- The `total_tests` component returned by `_assess_correctness` is the
number of expected outputs. -/
theorem assess_total {α : Type} [DecidableEq α] (er : Option (ExecResults α))
    (exp : List (IOExample α)) : (_assess_correctness er exp).2.2 = exp.length := by
  cases er with
  | none => rfl
  | some e =>
    simp only [_assess_correctness]
    split
    · simp_all
    · rfl

/-- With execution results present and at least one expected output,
`correctness = passed / total`. -/
theorem assess_ratio {α : Type} [DecidableEq α] (er : ExecResults α)
    (exp : List (IOExample α)) (h : exp ≠ []) :
    (_assess_correctness (some er) exp).1 =
      ((_assess_correctness (some er) exp).2.1 : ℚ) /
        ((_assess_correctness (some er) exp).2.2 : ℚ) := by
  have hlen : exp.length ≠ 0 := by simpa [List.length_eq_zero] using h
  simp only [_assess_correctness]
  simp [hlen]

/-- Scoring of the partially failing run `erPartial` against the two cases of
`taskTwoCases`: one of two cases passes. -/
theorem assess_partial :
    _assess_correctness (some erPartial)
      [{ input := some 1, output := 1 }, { input := some 2, output := 2 }] = (1/2, 1, 2) := by
  norm_num [_assess_correctness, erPartial, List.enum, List.enumFrom, List.countP,
    List.countP.go, List.find?, show ((0:Nat) == 1) = false from rfl,
    show ((1:Nat) == 1) = true from rfl, show ((0:Nat) == 0) = true from rfl]

/-! ## Claim C1 -/

/-- Claim C1 counterexample.  A candidate that parses, whose sandboxed run
completes successfully, and which passes one of its two test cases, comes
back from `evaluate_program` with correctness 1/2 and a failing-cases
diagnostic — but with status `failed_evaluation`, not `evaluated`: the
diagnostic lands in the error list and the final status check
(lines 311-314) turns any error into `failed_evaluation`. -/
theorem C1_counterexample :
    (evaluate_program prog1 taskTwoCases [] (some erPartial, none)).fitness_scores.correctness
        = some (1/2) ∧
    (evaluate_program prog1 taskTwoCases [] (some erPartial, none)).errors
        = ["Failed 1 out of 2 test cases."] ∧
    (evaluate_program prog1 taskTwoCases [] (some erPartial, none)).status ≠ "evaluated" ∧
    (evaluate_program prog1 taskTwoCases [] (some erPartial, none)).status
        = "failed_evaluation" := by
  simp [evaluate_program, taskTwoCases, assess_partial, finalize,
    show ((2:ℚ)⁻¹ < 1) from by norm_num, show toString (1:Nat) = "1" from rfl,
    show toString (2:Nat) = "2" from rfl]

/-- Claim C1 amended: for every candidate whose source parses and whose
sandboxed execution completes successfully but which fails at least one of
its test cases while passing at least one, `evaluate_program` returns the
candidate with status `FailedEvaluation` (not `Evaluated`): the scored
correctness, strictly between 0 and 1, is recorded, and the non-empty
diagnostics make the final status check classify the candidate as failed. -/
theorem C1_amended {α : Type} [DecidableEq α] (p : Program) (task : TaskDefinition α)
    (er : ExecResults α)
    (h0 : 0 < (_assess_correctness (some er) task.input_output_examples).2.1)
    (h1 : (_assess_correctness (some er) task.input_output_examples).2.1 <
          (_assess_correctness (some er) task.input_output_examples).2.2) :
    (evaluate_program p task [] (some er, none)).status = "failed_evaluation" ∧
    (evaluate_program p task [] (some er, none)).fitness_scores.correctness =
      some (_assess_correctness (some er) task.input_output_examples).1 ∧
    0 < (_assess_correctness (some er) task.input_output_examples).1 ∧
    (_assess_correctness (some er) task.input_output_examples).1 < 1 ∧
    (evaluate_program p task [] (some er, none)).errors ≠ [] := by
  set A := _assess_correctness (some er) task.input_output_examples with hA
  have htot : (0:Nat) < A.2.2 := lt_of_le_of_lt (Nat.zero_le _) h1
  have hexp : task.input_output_examples ≠ [] := by
    intro he
    have hz : A.2.2 = 0 := by rw [hA, assess_total, he]; simp
    omega
  have hne : task.input_output_examples.isEmpty = false := by
    simpa [List.isEmpty_iff] using hexp
  have hratio : A.1 = (A.2.1 : ℚ) / (A.2.2 : ℚ) := by
    rw [hA]; exact assess_ratio er _ hexp
  have hpos : 0 < A.1 := by
    rw [hratio]
    exact div_pos (by exact_mod_cast h0) (by exact_mod_cast htot)
  have hlt1 : A.1 < 1 := by
    rw [hratio, div_lt_one (by exact_mod_cast htot)]
    exact_mod_cast h1
  refine ⟨?_, ?_, hpos, hlt1, ?_⟩ <;>
    simp [evaluate_program, hne, finalize, ← hA, hlt1]

/-- Witness for C1: the amended statement at the concrete partially failing
run. -/
theorem C1_witness :
    (evaluate_program prog1 taskTwoCases [] (some erPartial, none)).status = "failed_evaluation" ∧
    (evaluate_program prog1 taskTwoCases [] (some erPartial, none)).fitness_scores.correctness =
      some (_assess_correctness (some erPartial) taskTwoCases.input_output_examples).1 ∧
    0 < (_assess_correctness (some erPartial) taskTwoCases.input_output_examples).1 ∧
    (_assess_correctness (some erPartial) taskTwoCases.input_output_examples).1 < 1 ∧
    (evaluate_program prog1 taskTwoCases [] (some erPartial, none)).errors ≠ [] :=
  C1_amended prog1 taskTwoCases erPartial (by decide) (by decide)

/-! ## Claim C2 -/

/-- Claim C2 (evaluating the code at the failing input).  `evaluate_program`
initialises `fitness_scores["runtime_ms"]` to the `float('inf')` sentinel
(line 273) and no statement of the function ever assigns to it again, so the
returned record carries `runtime_ms = ⊤` on every path — in particular for a
candidate whose sandboxed execution completed successfully, even though the
harness reported the mean per-case runtime (3 ms in the concrete run
`erAllPass`).  The claimed mean is never copied into the fitness record. -/
theorem C2_theorem :
    (∀ {α : Type} [DecidableEq α] (p : Program) (task : TaskDefinition α)
        (syntax_errors : List String)
        (execOutcome : Option (ExecResults α) × Option String),
      (evaluate_program p task syntax_errors execOutcome).fitness_scores.runtime_ms = some ⊤) ∧
    (evaluate_program prog1 taskTwoCases [] (some erAllPass, none)).fitness_scores.runtime_ms
      = some ⊤ ∧
    erAllPass.average_runtime_ms = some 3 := by
  have hgen : ∀ {α : Type} [DecidableEq α] (p : Program) (task : TaskDefinition α)
      (se : List String) (ex : Option (ExecResults α) × Option String),
      (evaluate_program p task se ex).fitness_scores.runtime_ms = some ⊤ := by
    intro α _ p task se ex
    rcases ex with ⟨res, err⟩
    cases err <;>
      simp [evaluate_program, finalize] <;>
      split_ifs <;>
      simp
  exact ⟨hgen, hgen prog1 taskTwoCases [] (some erAllPass, none), rfl⟩

/-! ## Claim C4 -/

/-- Claim C4 counterexample.  On a timed-out evaluation (timeout 800 s) the
candidate does come back as `failed_evaluation` with a diagnostic naming the
timeout, but `fitness_scores["runtime_ms"]` remains the `float('inf')`
sentinel set at line 273: it does not equal the timeout value (in seconds or
in milliseconds). -/
theorem C4_counterexample :
    (evaluate_program prog1 taskTwoCases [] (timeoutOutcome 800)).status = "failed_evaluation" ∧
    (evaluate_program prog1 taskTwoCases [] (timeoutOutcome 800)).errors
      = ["Execution Error: Execution timed out after 800 seconds."] ∧
    (evaluate_program prog1 taskTwoCases [] (timeoutOutcome 800)).fitness_scores.runtime_ms
      = some ⊤ ∧
    (evaluate_program prog1 taskTwoCases [] (timeoutOutcome 800)).fitness_scores.runtime_ms
      ≠ some ((800 : ℚ) : WithTop ℚ) ∧
    (evaluate_program prog1 taskTwoCases [] (timeoutOutcome 800)).fitness_scores.runtime_ms
      ≠ some ((800000 : ℚ) : WithTop ℚ) := by
  decide

/-- Claim C4 amended: whenever a sandboxed evaluation exceeds the configured
wall-clock timeout, `evaluate_program` returns the candidate with status
`FailedEvaluation`, correctness 0, a diagnostic identifying the failure as a
timeout — and `runtime_ms` left at the `+∞` sentinel rather than set to the
timeout value. -/
theorem C4_amended {α : Type} [DecidableEq α] (p : Program) (task : TaskDefinition α)
    (timeout : Nat) (h : task.input_output_examples ≠ []) :
    (evaluate_program p task [] (timeoutOutcome timeout)).status = "failed_evaluation" ∧
    (evaluate_program p task [] (timeoutOutcome timeout)).fitness_scores.correctness = some 0 ∧
    (evaluate_program p task [] (timeoutOutcome timeout)).fitness_scores.runtime_ms = some ⊤ ∧
    (evaluate_program p task [] (timeoutOutcome timeout)).errors
      = ["Execution Error: " ++ ("Execution timed out after " ++ toString timeout ++ " seconds.")] := by
  have hne : task.input_output_examples.isEmpty = false := by
    simpa [List.isEmpty_iff] using h
  simp [evaluate_program, timeoutOutcome, hne]

/-- Witness for C4: the amended statement at the concrete 800-second
timeout. -/
theorem C4_witness :
    (evaluate_program prog1 taskTwoCases [] (timeoutOutcome 800)).status = "failed_evaluation" ∧
    (evaluate_program prog1 taskTwoCases [] (timeoutOutcome 800)).fitness_scores.correctness
      = some 0 ∧
    (evaluate_program prog1 taskTwoCases [] (timeoutOutcome 800)).fitness_scores.runtime_ms
      = some ⊤ ∧
    (evaluate_program prog1 taskTwoCases [] (timeoutOutcome 800)).errors
      = ["Execution Error: " ++ ("Execution timed out after " ++ toString 800 ++ " seconds.")] :=
  C4_amended prog1 taskTwoCases 800 (by decide)

/-! ## Claim C6 -/

/-- Claim C6 counterexample.  For a syntactically valid candidate and a task
with zero test cases, `evaluate_program` sets correctness to 0.5 (line 308),
not to the claimed 1.0. -/
theorem C6_counterexample :
    (evaluate_program prog1 taskNoCases [] ((none : Option (ExecResults Int)), none)).fitness_scores.correctness
      = some (1/2) ∧
    some ((1:ℚ)/2) ≠ some (1:ℚ) := by
  refine ⟨rfl, by norm_num⟩

/-- Claim C6 amended: when the task supplies zero test cases,
`evaluate_program` sets fitness correctness to 0.5 (and status `evaluated`);
the `1.0`-by-convention rule exists only inside `_assess_correctness`
(lines 263-264), which `evaluate_program` never reaches on that path. -/
theorem C6_amended {α : Type} [DecidableEq α] (p : Program) (task : TaskDefinition α)
    (ex : Option (ExecResults α) × Option String)
    (h : task.input_output_examples = []) :
    (evaluate_program p task [] ex).fitness_scores.correctness = some (1/2) ∧
    (evaluate_program p task [] ex).status = "evaluated" ∧
    (∀ er : ExecResults α, (_assess_correctness (some er) task.input_output_examples).1 = 1) := by
  refine ⟨?_, ?_, ?_⟩
  · simp [evaluate_program, h, finalize]
  · simp [evaluate_program, h, finalize]
  · intro er
    simp [_assess_correctness, h]

/-- Witness for C6: the amended statement at the concrete no-test-cases
task. -/
theorem C6_witness :
    (evaluate_program prog1 taskNoCases [] ((none : Option (ExecResults Int)), none)).fitness_scores.correctness
      = some (1/2) ∧
    (evaluate_program prog1 taskNoCases [] ((none : Option (ExecResults Int)), none)).status
      = "evaluated" ∧
    (∀ er : ExecResults Int, (_assess_correctness (some er) taskNoCases.input_output_examples).1 = 1) :=
  C6_amended prog1 taskNoCases ((none : Option (ExecResults Int)), none) rfl

/-! ## Claim C9 -/

/-- Claim C9 counterexample.  `evaluate_program` updates the status, error
and fitness fields of the very object the caller passed in and returns that
object, so after the call the caller's candidate no longer equals its
pre-call state: the candidate is mutated in place, not returned as an
updated copy. -/
theorem C9_counterexample :
    evaluate_program_callerView prog1 taskNoCases [] ((none : Option (ExecResults Int)), none)
      ≠ prog1 := by
  decide

/-- Claim C9 amended: `evaluate_program` mutates the candidate it was given
and returns that same object (the caller's view of the argument after the
call is exactly the returned record); only `status`, `errors` and
`fitness_scores` are overwritten, while `id`, `code`, `generation` and
`parent_id` are untouched. -/
theorem C9_amended {α : Type} [DecidableEq α] (p : Program) (task : TaskDefinition α)
    (se : List String) (ex : Option (ExecResults α) × Option String) :
    (evaluate_program p task se ex).id = p.id ∧
    (evaluate_program p task se ex).code = p.code ∧
    (evaluate_program p task se ex).generation = p.generation ∧
    (evaluate_program p task se ex).parent_id = p.parent_id ∧
    evaluate_program_callerView p task se ex = evaluate_program p task se ex := by
  rcases ex with ⟨res, err⟩
  refine ⟨?_, ?_, ?_, ?_, rfl⟩ <;>
    (cases err <;> simp [evaluate_program, finalize] <;> split_ifs <;> simp)

/-! ## Claim C3 -/

/-- The collection loop of `evaluate_population`, when the loop index is
aligned with the tail being processed, pairs every outcome with the program
that produced it. -/
theorem evalPopGo_spec (outcome : Program → EvalOutcome) :
    ∀ (l pre : List Program),
      evalPopGo (pre ++ l) pre.length (l.map outcome)
        = l.map (fun p => resolveOutcome p (outcome p))
  | [], _ => rfl
  | a :: l, pre => by
    have hget : (pre ++ a :: l).getD pre.length defaultProgram = a := by
      rw [List.getD_eq_getElem?_getD, List.getElem?_append_right (le_refl pre.length)]
      simp
    have ih := evalPopGo_spec outcome l (pre ++ [a])
    simp only [List.append_assoc, List.singleton_append, List.length_append,
      List.length_singleton] at ih
    simp only [List.map_cons, evalPopGo, hget]
    rw [ih]

/-- Claim C3 counterexample.  Population `[progDone, progPend]` where
`progDone` is already `evaluated` and only `progPend` is dispatched; the
dispatched task raises `boom`.  `evaluate_population` looks the loop index up
in the unfiltered population (`population[i]`, line 66), so the exception is
attached to `progDone` — the already-evaluated candidate — and the returned
list contains no result at all for the dispatched candidate `pend`: it was
silently dropped and its failure recorded on a different candidate. -/
theorem C3_counterexample :
    evaluate_population [progDone, progPend] outcomeBoom
      = [{ progDone with status := "failed_evaluation", errors := ["boom"] }] ∧
    ∀ q ∈ evaluate_population [progDone, progPend] outcomeBoom, q.id ≠ "pend" := by
  decide

/-- Claim C3 amended: provided no candidate of the input population already
has status `evaluated` (so that the dispatched list coincides with the
population and the positional lookup is aligned), `evaluate_population`
returns exactly one result per dispatched candidate, in order: a normal
outcome replaces the candidate, and an exception converts that same
candidate to `failed_evaluation` with the error text appended.  When
already-evaluated candidates precede dispatched ones, the positional lookup
misattributes exception results (see the counterexample). -/
theorem C3_amended (population : List Program) (outcome : Program → EvalOutcome)
    (h : ∀ p ∈ population, p.status ≠ "evaluated") :
    evaluate_population population outcome
      = population.map (fun p => resolveOutcome p (outcome p)) := by
  have hf : population.filter (fun p => decide (p.status ≠ "evaluated")) = population :=
    List.filter_eq_self.mpr (fun a ha => by simpa using h a ha)
  have hs := evalPopGo_spec outcome population []
  unfold evaluate_population
  rw [hf]
  simpa using hs

/-- Witness for C3: the amended statement on a fully dispatched population
whose single task raises. -/
theorem C3_witness :
    evaluate_population [progPend] outcomeBoom
      = [progPend].map (fun p => resolveOutcome p (outcomeBoom p)) :=
  C3_amended [progPend] outcomeBoom (by decide)

/-! ## Claim C5 -/

/-- `pop3` is already in descending parent-key order (runtimes 10, 20, 30). -/
theorem pop3_sort : List.insertionSort parentGE pop3 = pop3 := by decide

/-- Elitism (`ELITISM_COUNT = 1`) takes exactly the best program of `pop3`. -/
theorem pop3_elite : dedupTake 1 [] pop3 = [progA] := by decide

/-- The roulette candidates are the two non-elite programs of `pop3`. -/
theorem pop3_filter :
    pop3.filter (fun p => decide (p.id ∉ [progA].map Program.id)) = [progB, progC] := by
  decide

/-- Claim C5 counterexample.  With `k = |population| = 3` (and the
repository's `ELITISM_COUNT = 1`), `select_parents` does not return the
whole population: the `k > |population|` early return is not taken, so the
elitism-plus-roulette path runs, and with uniform draws `[0, 0]` both
roulette draws pick the same candidate — `progB` is returned twice and
`progC` is omitted. -/
theorem C5_counterexample :
    select_parents pop3 3 1 [0, 0] (fun _ _ => []) (fun _ => defaultProgram)
      = [progA, progB, progB] ∧
    progC ∉ select_parents pop3 3 1 [0, 0] (fun _ _ => []) (fun _ => defaultProgram) := by
  have hmain :
      select_parents pop3 3 1 [0, 0] (fun _ _ => []) (fun _ => defaultProgram)
        = [progA, progB, progB] := by
    simp only [select_parents, pop3_sort, pop3_elite, pop3_filter]
    norm_num [corrD, progA, progB, progC, FitnessScores.empty, prog1,
      rouletteLoop, rouletteChoose, rouletteGo,
      show pop3 ≠ [] from by decide, show ¬ pop3.length < 3 from by decide]
  refine ⟨hmain, ?_⟩
  rw [hmain]
  decide

/-- Claim C5 amended: only for `k` strictly greater than the population size
does `select_parents` return the whole population (as a copy); when
`k = |population|` exactly, the elitism-plus-roulette path runs instead and
may repeat or omit candidates (see the counterexample). -/
theorem C5_amended (population : List Program) (num_parents elitism_count : Nat)
    (picks : List ℚ) (sampleFn : List Program → Nat → List Program)
    (choiceFn : List Program → Program)
    (h : population.length < num_parents) :
    select_parents population num_parents elitism_count picks sampleFn choiceFn
      = population := by
  by_cases hpop : population.isEmpty
  · have hnil := List.isEmpty_iff.mp hpop
    simp [select_parents, hpop, hnil]
  · have hnp : ¬ (num_parents = 0) := by
      intro h0
      rw [h0] at h
      omega
    simp [select_parents, hpop, hnp, h]

/-- Witness for C5: requesting four parents from the three-candidate
population returns the population itself. -/
theorem C5_witness :
    select_parents pop3 4 1 [] (fun _ _ => []) (fun _ => defaultProgram) = pop3 :=
  C5_amended pop3 4 1 [] (fun _ _ => []) (fun _ => defaultProgram) (by decide)

/-! ## Claim C7 -/

/-- Claim C7: applying an edit script with no edit blocks (the empty block
list), or one whose every SEARCH fragment does not occur in the source text,
returns the text unchanged — each absent-search edit is skipped without
failing the patch, and zero applied edits is the identity.  (The
all-absent-hypothesis is vacuous for the empty script, so this single
statement covers both spec sentences.) -/
theorem C7_apply_diff_identity (s : List Char) (blocks : List DiffBlock) :
    (∀ b ∈ blocks, pyIn (searchKey b) s = false) → _apply_diff s blocks = s := by
  induction blocks with
  | nil => intro _; rfl
  | cons b bs ih =>
    intro h
    have hb : applyOneDiff s b = s := by
      simp [applyOneDiff, h b (List.mem_cons_self b bs)]
    have ih2 := ih (fun b' hb' => h b' (List.mem_cons_of_mem _ hb'))
    simp only [_apply_diff, List.foldl_cons, hb] at ih2 ⊢
    exact ih2

/-- Witness for C7: a block searching for `"zzz"` leaves `"abc"` unchanged. -/
theorem C7_witness :
    (∀ b ∈ [absentBlock], pyIn (searchKey b) "abc".toList = false) ∧
    _apply_diff "abc".toList [absentBlock] = "abc".toList :=
  ⟨by decide, C7_apply_diff_identity "abc".toList [absentBlock] (by decide)⟩

/-! ## Claim C8 -/

/-- Claim C8 (evaluating the code at the failing input).  `gNew` and `gOld`
have identical fitness (correctness 1, runtime 50 ms) and differ only in
generation (1 vs 0).  The claim orders survivors descending by
`(correctness, -runtimeMs, generation)` — the newer `gNew` first on this
exact fitness tie — but the source sorts by the key
`(correctness, -runtime_ms, -generation)` with `reverse=True`
(line 127), which puts the *older* candidate first, contradicting the
code's own comment "Favor newer generations in case of exact fitness tie". -/
theorem C8_theorem :
    corrD gNew = corrD gOld ∧ rtD gNew = rtD gOld ∧
    gOld.generation = 0 ∧ gNew.generation = 1 ∧
    select_survivors [gNew, gOld] [] 2 = [gOld, gNew] := by
  decide

/-! ## Claim C10 -/

/-- Claim C10: whenever the text produced by the generation step still
contains the three literal diff markers, the post-generation filter of
`generate_offspring` returns no offspring — every branch of the filter up to
and including the marker check yields `none`, so raw diff text is never
turned into a candidate. -/
theorem C10_raw_diff_rejected (parent : Program) (generated_code : List Char)
    (generation_num : Int) (child_id : String)
    (h1 : pyIn searchMarker generated_code = true)
    (h2 : pyIn sepMarker generated_code = true)
    (h3 : pyIn replaceMarker generated_code = true) :
    generate_offspring_filter parent generated_code generation_num child_id = none := by
  simp [generate_offspring_filter, h1, h2, h3]

/-- Witness for C10: a concrete raw diff (containing all three markers) is
rejected. -/
theorem C10_witness :
    (pyIn searchMarker rawDiffText = true ∧ pyIn sepMarker rawDiffText = true ∧
      pyIn replaceMarker rawDiffText = true) ∧
    generate_offspring_filter prog1 rawDiffText 1 "child1" = none :=
  ⟨⟨by decide, by decide, by decide⟩,
    C10_raw_diff_rejected prog1 rawDiffText 1 "child1" (by decide) (by decide) (by decide)⟩

end OAE
